import Mathlib

/-!
Verification of the Employee Salary Management System
(src/employee_salary_system.py) against its specification.

Numbers are modelled as rationals (ℚ); the source computes with IEEE
doubles via pandas, and every concrete instance used below was chosen so
that the double computation and the rational computation agree.
Rounding models pandas `Series.round(2)`: scale by 100, round to the
nearest integer with ties to even (the numpy rounding mode), unscale.

The mutable `EmployeeSalaryManagement` object is embedded as explicit
state passing: each method becomes a function from `SystemState` to a
pair of the updated state and the method result.  Fallible methods
return `Option` results (`none` models Python `None`/`False` failure
signals).  File writes and console prints are modelled by returning the
written rows.
-/

/-- Rounding to the nearest integer with ties to even, as performed by
numpy/pandas when rounding a scaled value. -/
def roundHalfEven (x : ℚ) : ℤ :=
  let n : ℤ := ⌊x⌋
  let f : ℚ := x - (n : ℚ)
  if f < 1/2 then n
  else if 1/2 < f then n + 1
  else if n % 2 = 0 then n else n + 1

/-- Model of `Series.round(2)` (lines 92-94 of the source): round to two
decimal places, ties to even. -/
def round2 (x : ℚ) : ℚ := ((roundHalfEven (x * 100) : ℤ) : ℚ) / 100

/-- Decimal digits of a natural number, least significant first, computed
with explicit fuel so that the kernel can evaluate it. -/
def digitsAux : Nat → Nat → List Nat
  | 0, _ => []
  | fuel+1, n => if n = 0 then [] else n % 10 :: digitsAux fuel (n / 10)

/-- Decimal digits of `n`, least significant first. -/
def pyDigits (n : Nat) : List Nat := digitsAux n n

/-- Model of Python `str` on a non-negative integer, as used by the f-string
`f"salary_slip_{employee['employee_id']}.csv"` (line 133 of the source). -/
def pyNatStr (n : Nat) : String :=
  if n = 0 then "0" else String.mk (((pyDigits n).map Nat.digitChar).reverse)

/-!
Data model.  `Employee` is one row of the `df_employees` DataFrame: the
five raw columns fetched by the SQL query (lines 62-66) plus the three
derived columns, which are absent (`none`) until
`calculate_salary_components` has run.
-/

structure Employee where
  employee_id : Nat
  name : String
  basic_salary : ℚ
  bonus_percentage : ℚ
  tax_percentage : ℚ
  bonus : Option ℚ
  tax : Option ℚ
  net_salary : Option ℚ

/-- State of an `EmployeeSalaryManagement` object: whether `self.connection`
is set, and the `self.df_employees` DataFrame (`none` models Python `None`). -/
structure SystemState where
  connected : Bool
  df_employees : Option (List Employee)

/-- Model of `connect_database` (lines 40-53).  `ok` says whether the
external MySQL server accepts the connection; the method returns `True`
and stores the connection on success, logs and returns `False` otherwise. -/
def connect_database (ok : Bool) (s : SystemState) : SystemState × Bool :=
  if ok then (⟨true, s.df_employees⟩, true) else (s, false)

/-- Model of `fetch_employee_data` (lines 55-73).  `rows` is the row set the
store would answer the query with (`none` models a query error).  Returns the
updated state, the method result, and the number of connection attempts and
of successful connection opens the call performed itself (its reconnect
path at lines 57-59). -/
def fetch_employee_data (connectOk : Bool) (rows : Option (List Employee))
    (s : SystemState) : SystemState × Option (List Employee) × Nat × Nat :=
  if s.connected then
    match rows with
    | none => (s, none, 0, 0)
    | some rs => (⟨s.connected, some rs⟩, some rs, 0, 0)
  else
    match connect_database connectOk s with
    | (s1, false) => (s1, none, 1, 0)
    | (s1, true) =>
      match rows with
      | none => (s1, none, 1, 1)
      | some rs => (⟨s1.connected, some rs⟩, some rs, 1, 1)

/-- Per-record computation of `calculate_salary_components` (lines 81-94):
bonus and tax are the raw products, net salary is computed from the raw
(not yet rounded) bonus and tax, and only then are all three columns
rounded to two decimal places. -/
def calcOne (e : Employee) : Employee :=
  let bonusRaw : ℚ := e.basic_salary * (e.bonus_percentage / 100)
  let taxRaw : ℚ := e.basic_salary * (e.tax_percentage / 100)
  let netRaw : ℚ := e.basic_salary + bonusRaw - taxRaw
  ⟨e.employee_id, e.name, e.basic_salary, e.bonus_percentage, e.tax_percentage,
    some (round2 bonusRaw), some (round2 taxRaw), some (round2 netRaw)⟩

/-- Model of `calculate_salary_components` (lines 75-100): logs and returns
`None` when `self.df_employees is None`, otherwise assigns the three derived
columns in place and returns the DataFrame. -/
def calculate_salary_components (s : SystemState) :
    SystemState × Option (List Employee) :=
  match s.df_employees with
  | none => (s, none)
  | some es => (⟨s.connected, some (es.map calcOne)⟩, some (es.map calcOne))

/-- Column headers of an individual salary slip, in the order of the
`salary_slip_data` dict (lines 117-127). -/
def slipHeader : List String :=
  ["Employee ID", "Name", "Basic Salary", "Bonus Percentage", "Bonus Amount",
    "Tax Percentage", "Tax Amount", "Net Salary", "Generated Date"]

/-- Model of the f-string `f"{value}%"` used for the two percentage columns
(lines 121 and 123); the rational rendering stands in for Python float repr. -/
def pctStr (q : ℚ) : String := toString q ++ "%"

/-- Model of the f-string `f"salary_slip_{employee['employee_id']}.csv"`
(line 133). -/
def slip_filename (id : Nat) : String := "salary_slip_" ++ pyNatStr id ++ ".csv"

/-- One generated salary-slip CSV file: its name and its single row of nine
values under the nine headers of `slipHeader`. -/
structure SalarySlip where
  filename : String
  header : List String
  employeeID : Nat
  slipName : String
  basicSalary : ℚ
  bonusPercentage : String
  bonusAmount : ℚ
  taxPercentage : String
  taxAmount : ℚ
  netSalary : ℚ
  generatedDate : String

/-- The slip written for one row whose derived columns are present
(lines 115-137). -/
def slipOf (now : String) (e : Employee) : SalarySlip :=
  ⟨slip_filename e.employee_id, slipHeader, e.employee_id, e.name,
    e.basic_salary, pctStr e.bonus_percentage, (e.bonus).getD 0,
    pctStr e.tax_percentage, (e.tax).getD 0, (e.net_salary).getD 0, now⟩

/-- The per-record loop of `generate_salary_slips` (lines 115-138): one file
per row; a row without the derived columns raises `KeyError`, which the
method catches, turning the whole call into a failure (`none`). -/
def writeSlips (now : String) : List Employee → Option (List SalarySlip)
  | [] => some []
  | e :: es =>
    match e.bonus, e.tax, e.net_salary with
    | some _, some _, some _ =>
      match writeSlips now es with
      | some fs => some (slipOf now e :: fs)
      | none => none
    | _, _, _ => none

/-- Model of `generate_salary_slips` (lines 102-144): fails (`False`,
modelled `none`) when `self.df_employees is None`, otherwise writes one CSV
file per row and returns `True` (modelled as the file list). -/
def generate_salary_slips (now : String) (s : SystemState) :
    SystemState × Option (List SalarySlip) :=
  match s.df_employees with
  | none => (s, none)
  | some es => (s, writeSlips now es)

/-- Sum of a derived DataFrame column: defined only when every cell is
present (a missing column would raise `KeyError` in the source). -/
def colSum (f : Employee → Option ℚ) : List Employee → Option ℚ
  | [] => some 0
  | e :: es =>
    match f e, colSum f es with
    | some v, some acc => some (v + acc)
    | _, _ => none

/-- Pandas `Series.mean()`: the float NaN on an empty column (modelled as
`none`), otherwise sum divided by length. -/
def seriesMean (total : ℚ) (count : Nat) : Option ℚ :=
  if count = 0 then none else some (total / count)

/-- Rendering of the average in the statistics block (line 165).  The float
NaN prints as `nan` under the `:,.2f` format; the rational rendering stands
in for the two-decimal formatting of an ordinary value. -/
def fmtAvg : Option ℚ → String
  | none => "nan"
  | some q => toString q

/-- The statistics block printed by `display_salary_summary`
(lines 158-165). -/
structure SalarySummary where
  table : List Employee
  totalEmployees : Nat
  totalBasicSalary : ℚ
  totalBonus : ℚ
  totalTax : ℚ
  totalNetSalary : ℚ
  averageNetSalary : Option ℚ
  averageNetSalaryText : String

/-- Model of `display_salary_summary` (lines 146-166): returns without
output when `self.df_employees is None`; otherwise prints the table and the
statistics.  `none` also models the `KeyError` escaping the method when a
derived column is absent. -/
def display_salary_summary (s : SystemState) : Option SalarySummary :=
  match s.df_employees with
  | none => none
  | some es =>
    match colSum Employee.bonus es, colSum Employee.tax es,
        colSum Employee.net_salary es with
    | some sb, some st, some sn =>
      let avg : Option ℚ := seriesMean sn es.length
      some ⟨es, es.length, (es.map Employee.basic_salary).sum, sb, st, sn,
        avg, fmtAvg avg⟩
    | _, _, _ => none

/-- One row of the aggregate report: every column of the record plus the
added `report_generated` column (line 177). -/
structure ReportRow where
  employee_id : Nat
  name : String
  basic_salary : ℚ
  bonus_percentage : ℚ
  tax_percentage : ℚ
  bonus : Option ℚ
  tax : Option ℚ
  net_salary : Option ℚ
  report_generated : String

/-- The aggregate-report row built from one record. -/
def mkReportRow (now : String) (e : Employee) : ReportRow :=
  ⟨e.employee_id, e.name, e.basic_salary, e.bonus_percentage,
    e.tax_percentage, e.bonus, e.tax, e.net_salary, now⟩

/-- Model of `export_complete_report` (lines 168-185): fails when
`self.df_employees is None`; otherwise writes a copy of the table with the
timestamp column appended.  The copy (line 176) is mutated, not the stored
table, so the state is returned unchanged. -/
def export_complete_report (now : String) (s : SystemState) :
    SystemState × Option (List ReportRow) :=
  match s.df_employees with
  | none => (s, none)
  | some es => (s, some (es.map (mkReportRow now)))

/-- Model of `add_new_employee` (lines 187-209).  `assignedId` is the id the
store assigns on a successful insert (`none` models an insert error, on
which the method returns `False`).  Returns the updated state, the method
result, and the connection attempts/opens of its own reconnect path
(lines 189-191). -/
def add_new_employee (connectOk : Bool) (assignedId : Option Nat)
    (_nm : String) (_bs _bp _tp : ℚ) (s : SystemState) :
    SystemState × Option Nat × Nat × Nat :=
  if s.connected then (s, assignedId, 0, 0)
  else
    match connect_database connectOk s with
    | (s1, true) => (s1, assignedId, 1, 1)
    | (s1, false) => (s1, none, 1, 0)

/-- Model of `close_connection` (lines 211-215): closes the connection when
one is held, otherwise does nothing.  The Bool reports whether a close
happened. -/
def close_connection (s : SystemState) : SystemState × Bool :=
  if s.connected then (⟨false, s.df_employees⟩, true) else (s, false)

/-- The prefix of the `logger.error` message at line 52. -/
def connectErrorLog : String := "Error connecting to MySQL database"

/-- The prefix of the `logger.error` message at line 72. -/
def fetchErrorLog : String := "Error fetching employee data"

/-- The `logger.error` message at line 78. -/
def calcErrorLog : String := "No employee data available. Please fetch data first."

/-- The name inserted by the example mutation step (line 268). -/
def alexName : String := "Alex Johnson"

/-- External world of one run of `main`: whether the store accepts the
connection, the row set it answers the fetch query with (`none` = query
error), the id it assigns to the example insert (`none` = insert error),
and the wall-clock timestamp string. -/
structure Env where
  connectSucceeds : Bool
  queryRows : Option (List Employee)
  insertAssignedId : Option Nat
  now : String

/-- Observables of one run of `main` (lines 217-284): the final object
state, connection accounting, error logs, the files written, whether the
insert was attempted, and whether the `finally` cleanup ran and closed a
connection. -/
structure RunResult where
  finalState : SystemState
  connectAttempts : Nat
  connectionsOpened : Nat
  errorLogs : List String
  slipFiles : List SalarySlip
  reportRows : Option (List ReportRow)
  summaryShown : Option SalarySummary
  insertAttempted : Bool
  insertResult : Option Nat
  cleanupRan : Bool
  connectionClosed : Bool
  fetchConnOpens : Nat
  insertConnOpens : Nat

/-- The fresh object built at lines 225-230. -/
def initialState : SystemState := ⟨false, none⟩

/-- Model of `main` (lines 217-284): connect, fetch, compute, display,
generate slips, export report, insert the example employee; each of the
first three steps aborts the run on failure (early `return` inside the
`try`), and the `finally` block always runs `close_connection`. -/
def mainRun (env : Env) : RunResult :=
  match connect_database env.connectSucceeds initialState with
  | (s1, false) =>
    let c := close_connection s1
    { finalState := c.1, connectAttempts := 1, connectionsOpened := 0,
      errorLogs := [connectErrorLog], slipFiles := [], reportRows := none,
      summaryShown := none, insertAttempted := false, insertResult := none,
      cleanupRan := true, connectionClosed := c.2,
      fetchConnOpens := 0, insertConnOpens := 0 }
  | (s1, true) =>
    match fetch_employee_data env.connectSucceeds env.queryRows s1 with
    | (s2, none, fa, fo) =>
      let c := close_connection s2
      { finalState := c.1, connectAttempts := 1 + fa, connectionsOpened := 1 + fo,
        errorLogs := [fetchErrorLog], slipFiles := [], reportRows := none,
        summaryShown := none, insertAttempted := false, insertResult := none,
        cleanupRan := true, connectionClosed := c.2,
        fetchConnOpens := fo, insertConnOpens := 0 }
    | (s2, some _, fa, fo) =>
      match calculate_salary_components s2 with
      | (s3, none) =>
        let c := close_connection s3
        { finalState := c.1, connectAttempts := 1 + fa, connectionsOpened := 1 + fo,
          errorLogs := [calcErrorLog], slipFiles := [], reportRows := none,
          summaryShown := none, insertAttempted := false, insertResult := none,
          cleanupRan := true, connectionClosed := c.2,
          fetchConnOpens := fo, insertConnOpens := 0 }
      | (s3, some _) =>
        let su := display_salary_summary s3
        let gen := generate_salary_slips env.now s3
        let rep := export_complete_report env.now gen.1
        match add_new_employee env.connectSucceeds env.insertAssignedId
            alexName 62000 14 19 rep.1 with
        | (s6, insRes, ia, io) =>
          let c := close_connection s6
          { finalState := c.1, connectAttempts := 1 + fa + ia,
            connectionsOpened := 1 + fo + io,
            errorLogs := [], slipFiles := (gen.2).getD [],
            reportRows := rep.2, summaryShown := su,
            insertAttempted := true, insertResult := insRes,
            cleanupRan := true, connectionClosed := c.2,
            fetchConnOpens := fo, insertConnOpens := io }

/-!
Concrete records used in examples, counterexamples and witnesses.
-/

/-- The record of the worked example in the spec (and the example insert at
lines 267-272). -/
def exampleAlex : Employee := ⟨1, alexName, 62000, 14, 19, none, none, none⟩

/-- A record whose unrounded bonus (0.007) and tax (0.003) round to 0.01 and
0.00: net salary computed from unrounded values differs from net salary
computed from the rounded fields. -/
def cexEmployee : Employee := ⟨2, "Bea", 1, 7/10, 3/10, none, none, none⟩

/-- A record with a negative basic salary and out-of-range percentages. -/
def negEmployee : Employee := ⟨3, "Cal", -1000, 150, -5, none, none, none⟩

def wtA : Employee := ⟨4, "Dee", 1000, 10, 20, none, none, none⟩

def wtB : Employee := ⟨5, "Eli", 2000, 0, 0, none, none, none⟩

def ts0 : String := "2026-10-12 00:00:00"

def emptyState : SystemState := ⟨true, some []⟩

/-- What `display_salary_summary` produces on an empty record set. -/
def summaryEmpty : SalarySummary := ⟨[], 0, 0, 0, 0, 0, none, "nan"⟩

/-- An environment whose store refuses the connection. -/
def envFail : Env := ⟨false, none, none, ts0⟩

/-- An environment whose store accepts the connection, answers the query
with one row and assigns id 6 to the insert. -/
def envOk : Env := ⟨true, some [wtA], some 6, ts0⟩


/-- Evaluation rule for `round2` when the scaled value falls strictly below
the half-way point above `n`. -/
theorem round2_eq_of_lt (x : ℚ) (n : ℤ) (h1 : (n : ℚ) ≤ x * 100)
    (h2 : x * 100 < (n : ℚ) + 1/2) : round2 x = (n : ℚ) / 100 := by
  have hfl : ⌊x * 100⌋ = n := by
    rw [Int.floor_eq_iff]
    refine ⟨h1, ?_⟩
    linarith
  simp only [round2, roundHalfEven, hfl]
  rw [if_pos (by linarith)]

/-- Evaluation rule for `round2` when the scaled value falls strictly above
the half-way point above `n`. -/
theorem round2_eq_of_gt (x : ℚ) (n : ℤ) (h1 : (n : ℚ) + 1/2 < x * 100)
    (h2 : x * 100 < (n : ℚ) + 1) : round2 x = ((n : ℚ) + 1) / 100 := by
  have hfl : ⌊x * 100⌋ = n := by
    rw [Int.floor_eq_iff]
    constructor
    · linarith
    · linarith
  simp only [round2, roundHalfEven, hfl]
  rw [if_neg (by linarith), if_pos (by linarith)]
  push_cast
  ring

theorem digitsAux_eq (fuel n : Nat) (h : n ≤ fuel) :
    digitsAux fuel n = Nat.digits 10 n := by
  induction fuel generalizing n with
  | zero => interval_cases n; simp [digitsAux]
  | succ fuel ih =>
    rcases Nat.eq_zero_or_pos n with hn | hn
    · subst hn; simp [digitsAux]
    · rw [digitsAux, if_neg (Nat.pos_iff_ne_zero.mp hn),
        Nat.digits_def' (b := 10) (by norm_num) hn, ih]
      exact Nat.le_of_lt_succ (Nat.lt_of_lt_of_le (Nat.div_lt_self hn (by norm_num)) h)

theorem pyDigits_eq (n : Nat) : pyDigits n = Nat.digits 10 n :=
  digitsAux_eq n n le_rfl

theorem digitChar_inj_lt :
    ∀ a < 10, ∀ b < 10, Nat.digitChar a = Nat.digitChar b → a = b := by decide

theorem map_digitChar_cancel :
    ∀ l₁ l₂ : List Nat, (∀ x ∈ l₁, x < 10) → (∀ x ∈ l₂, x < 10) →
      l₁.map Nat.digitChar = l₂.map Nat.digitChar → l₁ = l₂ := by
  intro l₁
  induction l₁ with
  | nil => intro l₂ _ _ h; cases l₂ <;> simp_all
  | cons a t ih =>
    intro l₂ h₁ h₂ h
    cases l₂ with
    | nil => simp at h
    | cons b t₂ =>
      simp only [List.map_cons, List.cons.injEq] at h
      have ha : a < 10 := h₁ a (by simp)
      have hb : b < 10 := h₂ b (by simp)
      have hab : a = b := digitChar_inj_lt a ha b hb h.1
      subst hab
      rw [ih t₂ (fun x hx => h₁ x (by simp [hx])) (fun x hx => h₂ x (by simp [hx])) h.2]

/-- Distinct natural numbers have distinct decimal string renderings. -/
theorem pyNatStr_injective : Function.Injective pyNatStr := by
  have key : ∀ m : Nat, m ≠ 0 → pyNatStr m = "0" → False := by
    intro m hm hmk
    rw [pyNatStr, if_neg hm] at hmk
    have hdata : ((pyDigits m).map Nat.digitChar).reverse = ['0'] := by
      have := congrArg String.data hmk
      simpa using this
    have hd : (pyDigits m).map Nat.digitChar = ['0'] := by
      have := congrArg List.reverse hdata
      simpa using this
    rw [pyDigits_eq] at hd
    have hdig : Nat.digits 10 m = [0] := by
      rcases hds : Nat.digits 10 m with _ | ⟨d, rest⟩
      · rw [hds] at hd; simp at hd
      · rw [hds] at hd
        simp only [List.map_cons, List.cons.injEq] at hd
        have hdlt : d < 10 := Nat.digits_lt_base (by norm_num) (by rw [hds]; simp)
        have hd0 : d = 0 := digitChar_inj_lt d hdlt 0 (by norm_num) hd.1
        have hrest : rest = [] := by
          cases rest with
          | nil => rfl
          | cons c t => simp at hd
        simp [hd0, hrest]
    have hof := Nat.ofDigits_digits 10 m
    rw [hdig] at hof
    simp [Nat.ofDigits] at hof
    exact hm hof.symm
  intro a b h
  rcases Nat.eq_zero_or_pos a with ha | ha <;> rcases Nat.eq_zero_or_pos b with hb | hb
  · omega
  · subst ha
    exact absurd (key b (Nat.pos_iff_ne_zero.mp hb) (by rw [← h, pyNatStr]; simp)) (by simp)
  · subst hb
    exact absurd (key a (Nat.pos_iff_ne_zero.mp ha) (by rw [h, pyNatStr]; simp)) (by simp)
  · have ha0 := Nat.pos_iff_ne_zero.mp ha
    have hb0 := Nat.pos_iff_ne_zero.mp hb
    rw [pyNatStr, if_neg ha0, pyNatStr, if_neg hb0] at h
    have hdata : ((pyDigits a).map Nat.digitChar).reverse
        = ((pyDigits b).map Nat.digitChar).reverse := by
      have := congrArg String.data h
      simpa using this
    have hmap : (pyDigits a).map Nat.digitChar = (pyDigits b).map Nat.digitChar := by
      have := congrArg List.reverse hdata
      simpa using this
    rw [pyDigits_eq, pyDigits_eq] at hmap
    have hdig := map_digitChar_cancel (Nat.digits 10 a) (Nat.digits 10 b)
      (fun x hx => Nat.digits_lt_base (by norm_num) hx)
      (fun x hx => Nat.digits_lt_base (by norm_num) hx) hmap
    exact Nat.digits.injective 10 hdig

/-!
Evaluation lemmas for the concrete roundings that appear in the claims.
-/

theorem alex_bonus_eval : (calcOne exampleAlex).bonus = some 8680 := by
  simp only [calcOne, exampleAlex]
  rw [round2_eq_of_lt ((62000 : ℚ) * (14 / 100)) 868000 (by norm_num) (by norm_num)]
  norm_num

theorem alex_tax_eval : (calcOne exampleAlex).tax = some 11780 := by
  simp only [calcOne, exampleAlex]
  rw [round2_eq_of_lt ((62000 : ℚ) * (19 / 100)) 1178000 (by norm_num) (by norm_num)]
  norm_num

theorem cex_bonus_eval : (calcOne cexEmployee).bonus = some (1/100) := by
  simp only [calcOne, cexEmployee]
  rw [round2_eq_of_gt ((1 : ℚ) * (7 / 10 / 100)) 0 (by norm_num) (by norm_num)]
  norm_num

theorem cex_tax_eval : (calcOne cexEmployee).tax = some 0 := by
  simp only [calcOne, cexEmployee]
  rw [round2_eq_of_lt ((1 : ℚ) * (3 / 10 / 100)) 0 (by norm_num) (by norm_num)]
  norm_num

theorem cex_net_eval : (calcOne cexEmployee).net_salary = some 1 := by
  simp only [calcOne, cexEmployee]
  rw [round2_eq_of_lt ((1 : ℚ) + 1 * (7 / 10 / 100) - 1 * (3 / 10 / 100)) 100
    (by norm_num) (by norm_num)]
  norm_num

theorem neg_bonus_eval : (calcOne negEmployee).bonus = some (-1500) := by
  simp only [calcOne, negEmployee]
  rw [round2_eq_of_lt ((-1000 : ℚ) * (150 / 100)) (-150000) (by norm_num) (by norm_num)]
  norm_num

theorem neg_tax_eval : (calcOne negEmployee).tax = some 50 := by
  simp only [calcOne, negEmployee]
  rw [round2_eq_of_lt ((-1000 : ℚ) * (-5 / 100)) 5000 (by norm_num) (by norm_num)]
  norm_num

theorem neg_net_eval : (calcOne negEmployee).net_salary = some (-2550) := by
  simp only [calcOne, negEmployee]
  rw [round2_eq_of_lt ((-1000 : ℚ) + -1000 * (150 / 100) - -1000 * (-5 / 100)) (-255000)
    (by norm_num) (by norm_num)]
  norm_num

/-- Slip filenames are determined by the employee id alone, injectively:
two different ids can never collide on a filename. -/
theorem slip_filename_injective : Function.Injective slip_filename := by
  intro a b h
  apply pyNatStr_injective
  unfold slip_filename at h
  have hd := congrArg String.data h
  simp only [String.data_append] at hd
  exact String.ext (List.append_cancel_left (List.append_cancel_right hd))

/-- On rows produced by `calcOne` every derived column is present, so the
slip loop writes exactly one file per row and succeeds. -/
theorem writeSlips_map_calcOne (now : String) (es : List Employee) :
    writeSlips now (es.map calcOne) = some ((es.map calcOne).map (slipOf now)) := by
  induction es with
  | nil => rfl
  | cons e t ih =>
    have hstep : writeSlips now (calcOne e :: t.map calcOne) =
        match writeSlips now (t.map calcOne) with
        | some fs => some (slipOf now (calcOne e) :: fs)
        | none => none := rfl
    simp only [List.map_cons, hstep, ih]

/-- Recomputing the derived columns of an already derived row changes
nothing: `calcOne` reads only the raw columns, which it preserves. -/
theorem calcOne_idem (e : Employee) : calcOne (calcOne e) = calcOne e := rfl

/-- C1: for every record in the derivation step's input, the derived bonus
equals round(basic_salary * bonus_percentage / 100, 2) and the derived tax
equals round(basic_salary * tax_percentage / 100, 2); in particular the
record with basic_salary 62000.00, bonus_percentage 14.00 and
tax_percentage 19.00 yields bonus 8680.00 and tax 11780.00. -/
theorem calculate_salary_formulas :
    (∀ (s : SystemState) (es : List Employee), s.df_employees = some es →
      (calculate_salary_components s).2 = some (es.map calcOne) ∧
      ∀ e ∈ es,
        (calcOne e).bonus =
          some (round2 (e.basic_salary * (e.bonus_percentage / 100))) ∧
        (calcOne e).tax =
          some (round2 (e.basic_salary * (e.tax_percentage / 100)))) ∧
    (calcOne exampleAlex).bonus = some 8680 ∧
    (calcOne exampleAlex).tax = some 11780 := by
  refine ⟨?_, alex_bonus_eval, alex_tax_eval⟩
  intro s es h
  refine ⟨by simp only [calculate_salary_components, h], ?_⟩
  intro e _
  exact ⟨rfl, rfl⟩

/-- Witness for C1 at a one-record input. -/
theorem calculate_salary_formulas_instance :
    (calculate_salary_components ⟨false, some [exampleAlex]⟩).2 =
      some ([exampleAlex].map calcOne) ∧
    (calcOne exampleAlex).bonus = some 8680 ∧
    (calcOne exampleAlex).tax = some 11780 :=
  ⟨(calculate_salary_formulas.1 ⟨false, some [exampleAlex]⟩ [exampleAlex] rfl).1,
    calculate_salary_formulas.2.1, calculate_salary_formulas.2.2⟩

/-- C2 counterexample: the code computes net salary from the UNROUNDED
bonus and tax (line 89) and rounds afterwards (line 94).  For basic 1.00,
bonus% 0.70, tax% 0.30, the derived fields are bonus 0.01, tax 0.00,
net 1.00, but round(basic + rounded bonus - rounded tax, 2) = 1.01, so the
claim, which takes bonus and tax to be the already rounded fields, fails
on this record. -/
theorem net_salary_rounded_inputs_cex :
    (calcOne cexEmployee).bonus = some (1/100) ∧
    (calcOne cexEmployee).tax = some 0 ∧
    (calcOne cexEmployee).net_salary = some 1 ∧
    round2 (cexEmployee.basic_salary + 1/100 - 0) = 101/100 ∧
    (calcOne cexEmployee).net_salary ≠
      some (round2 (cexEmployee.basic_salary + 1/100 - 0)) := by
  have h4 : round2 (cexEmployee.basic_salary + 1/100 - 0) = 101/100 := by
    simp only [cexEmployee]
    rw [round2_eq_of_lt ((1 : ℚ) + 1/100 - 0) 101 (by norm_num) (by norm_num)]
    norm_num
  refine ⟨cex_bonus_eval, cex_tax_eval, cex_net_eval, h4, ?_⟩
  rw [cex_net_eval, h4]
  simp only [ne_eq, Option.some.injEq]
  norm_num

/-- C2 amended: for every record in the derivation step's input, the derived
net_salary equals round(basic_salary + bonus_raw - tax_raw, 2) where
bonus_raw and tax_raw are the UNROUNDED products
basic_salary * percentage / 100; the rounding of the bonus and tax columns
happens only after net salary has been computed. -/
theorem net_salary_from_unrounded (s : SystemState) (es : List Employee)
    (h : s.df_employees = some es) :
    (calculate_salary_components s).2 = some (es.map calcOne) ∧
    ∀ e ∈ es, (calcOne e).net_salary =
      some (round2 (e.basic_salary + e.basic_salary * (e.bonus_percentage / 100)
        - e.basic_salary * (e.tax_percentage / 100))) := by
  refine ⟨by simp only [calculate_salary_components, h], ?_⟩
  intro e _
  rfl

/-- Witness for the amended C2 at a one-record input. -/
theorem net_salary_from_unrounded_instance :
    (calcOne cexEmployee).net_salary =
      some (round2 (cexEmployee.basic_salary
        + cexEmployee.basic_salary * (cexEmployee.bonus_percentage / 100)
        - cexEmployee.basic_salary * (cexEmployee.tax_percentage / 100))) :=
  (net_salary_from_unrounded ⟨false, some [cexEmployee]⟩ [cexEmployee] rfl).2
    cexEmployee (by simp)

/-- C3: the derivation step returns an error result (`None`) iff the input
record set is absent; any present record set succeeds and is mapped through
the formulas with no per-record validation, e.g. a record with negative
basic salary -1000, bonus% 150 and tax% -5 yields bonus -1500.00,
tax 50.00, net -2550.00. -/
theorem calc_fails_iff_absent (s : SystemState) :
    ((calculate_salary_components s).2 = none ↔ s.df_employees = none) ∧
    (∀ es, s.df_employees = some es →
      (calculate_salary_components s).2 = some (es.map calcOne)) ∧
    (calcOne negEmployee).bonus = some (-1500) ∧
    (calcOne negEmployee).tax = some 50 ∧
    (calcOne negEmployee).net_salary = some (-2550) := by
  refine ⟨?_, ?_, neg_bonus_eval, neg_tax_eval, neg_net_eval⟩
  · rcases s with ⟨c, df⟩
    cases df <;> simp [calculate_salary_components]
  · intro es h
    simp only [calculate_salary_components, h]

/-- Witness for C3 at a record with negative salary and out-of-range
percentages. -/
theorem calc_fails_iff_absent_instance :
    (calculate_salary_components ⟨false, some [negEmployee]⟩).2 =
      some ([negEmployee].map calcOne) :=
  (calc_fails_iff_absent ⟨false, some [negEmployee]⟩).2.1 [negEmployee] rfl

/-- C4: on a derived record set the per-record export produces exactly one
file per input record, each named by the record's employee id through the
injective `slip_filename` (so it can never overwrite a different employee's
file), with a single row under the fixed nine-column header, the two
percentage columns carrying a trailing percent sign and the last column the
generation timestamp. -/
theorem generate_salary_slips_spec (now : String) (s : SystemState)
    (es : List Employee) (h : s.df_employees = some (es.map calcOne)) :
    (generate_salary_slips now s).2 = some ((es.map calcOne).map (slipOf now)) ∧
    ((es.map calcOne).map (slipOf now)).length = (es.map calcOne).length ∧
    (∀ e ∈ es.map calcOne,
      (slipOf now e).filename = slip_filename e.employee_id ∧
      (slipOf now e).header = slipHeader ∧ slipHeader.length = 9 ∧
      (slipOf now e).bonusPercentage = pctStr e.bonus_percentage ∧
      (slipOf now e).taxPercentage = pctStr e.tax_percentage ∧
      (∃ sb, (slipOf now e).bonusPercentage = sb ++ "%") ∧
      (∃ st, (slipOf now e).taxPercentage = st ++ "%") ∧
      (slipOf now e).generatedDate = now) ∧
    Function.Injective slip_filename := by
  refine ⟨?_, by simp, ?_, slip_filename_injective⟩
  · simp only [generate_salary_slips, h, writeSlips_map_calcOne]
  · intro e _
    exact ⟨rfl, rfl, rfl, rfl, rfl, ⟨toString e.bonus_percentage, rfl⟩,
      ⟨toString e.tax_percentage, rfl⟩, rfl⟩

/-- Witness for C4 at a two-record input with distinct employee ids. -/
theorem generate_salary_slips_spec_instance :
    (generate_salary_slips ts0 ⟨true, some ([wtA, wtB].map calcOne)⟩).2 =
      some (([wtA, wtB].map calcOne).map (slipOf ts0)) ∧
    slip_filename 4 ≠ slip_filename 5 :=
  ⟨(generate_salary_slips_spec ts0 ⟨true, some ([wtA, wtB].map calcOne)⟩
      [wtA, wtB] rfl).1,
    fun hc => by
      have h45 := (generate_salary_slips_spec ts0
        ⟨true, some ([wtA, wtB].map calcOne)⟩ [wtA, wtB] rfl).2.2.2 hc
      norm_num at h45⟩

/-- C5: on a present record set the aggregate export produces one row per
input record (equal row count), each row being exactly the record's columns
with the single added generation-timestamp column. -/
theorem export_report_rows (now : String) (s : SystemState) (es : List Employee)
    (h : s.df_employees = some es) :
    (export_complete_report now s).2 = some (es.map (mkReportRow now)) ∧
    (es.map (mkReportRow now)).length = es.length ∧
    ∀ e ∈ es, (mkReportRow now e).employee_id = e.employee_id ∧
      (mkReportRow now e).name = e.name ∧
      (mkReportRow now e).basic_salary = e.basic_salary ∧
      (mkReportRow now e).bonus_percentage = e.bonus_percentage ∧
      (mkReportRow now e).tax_percentage = e.tax_percentage ∧
      (mkReportRow now e).bonus = e.bonus ∧
      (mkReportRow now e).tax = e.tax ∧
      (mkReportRow now e).net_salary = e.net_salary ∧
      (mkReportRow now e).report_generated = now := by
  refine ⟨by simp only [export_complete_report, h], by simp, ?_⟩
  intro e _
  exact ⟨rfl, rfl, rfl, rfl, rfl, rfl, rfl, rfl, rfl⟩

/-- Witness for C5 at a one-record input. -/
theorem export_report_rows_instance :
    (export_complete_report ts0 ⟨true, some [wtA]⟩).2 =
      some ([wtA].map (mkReportRow ts0)) :=
  (export_report_rows ts0 ⟨true, some [wtA]⟩ [wtA] rfl).1

/-- C6 counterexample: on the empty record set the summary does have count
0 and all sums 0.00 and nothing fails, but the average is the pandas mean
of an empty column — the float NaN, displayed as `nan` — which is neither
the fallback "N/A" nor 0.00 that the claim names. -/
theorem reporting_empty_avg_cex :
    display_salary_summary emptyState = some summaryEmpty ∧
    summaryEmpty.totalEmployees = 0 ∧
    summaryEmpty.totalBasicSalary = 0 ∧ summaryEmpty.totalBonus = 0 ∧
    summaryEmpty.totalTax = 0 ∧ summaryEmpty.totalNetSalary = 0 ∧
    ¬(summaryEmpty.averageNetSalaryText = "N/A" ∨
      summaryEmpty.averageNetSalary = some 0) := by
  refine ⟨rfl, rfl, rfl, rfl, rfl, rfl, ?_⟩
  intro hc
  rcases hc with hc | hc <;> simp [summaryEmpty] at hc

/-- C6 amended: on the empty record set the reporting step succeeds,
reports count 0 and all sums 0.00, and the average computation performs no
division (the pandas mean of an empty column is the float NaN, modelled
`none`), displayed as the defined string `nan` — not "N/A" and not 0.00. -/
theorem reporting_empty_defined :
    display_salary_summary emptyState = some summaryEmpty ∧
    summaryEmpty.totalEmployees = 0 ∧ summaryEmpty.totalBasicSalary = 0 ∧
    summaryEmpty.totalBonus = 0 ∧ summaryEmpty.totalTax = 0 ∧
    summaryEmpty.totalNetSalary = 0 ∧
    summaryEmpty.averageNetSalary = none ∧
    summaryEmpty.averageNetSalaryText = "nan" :=
  ⟨rfl, rfl, rfl, rfl, rfl, rfl, rfl, rfl⟩

/-- C7: in every run whose store connection fails, the pipeline logs the
connection failure and aborts: no slip files, no aggregate report, no
summary, the mutation step is never attempted, no connection is opened,
and the cleanup path still runs. -/
theorem abort_on_connect_failure (env : Env) (h : env.connectSucceeds = false) :
    (mainRun env).errorLogs = [connectErrorLog] ∧
    (mainRun env).slipFiles = [] ∧
    (mainRun env).reportRows = none ∧
    (mainRun env).summaryShown = none ∧
    (mainRun env).insertAttempted = false ∧
    (mainRun env).connectionsOpened = 0 ∧
    (mainRun env).cleanupRan = true := by
  rcases env with ⟨cs, qr, ii, now⟩
  cases cs
  · exact ⟨rfl, rfl, rfl, rfl, rfl, rfl, rfl⟩
  · simp at h
/-- Witness for C7 at a concrete failing environment. -/
theorem abort_on_connect_failure_instance :
    (mainRun envFail).errorLogs = [connectErrorLog] ∧
    (mainRun envFail).slipFiles = [] ∧
    (mainRun envFail).reportRows = none ∧
    (mainRun envFail).summaryShown = none ∧
    (mainRun envFail).insertAttempted = false ∧
    (mainRun envFail).connectionsOpened = 0 ∧
    (mainRun envFail).cleanupRan = true :=
  abort_on_connect_failure envFail rfl

/-- C8: every run makes exactly one connection attempt; neither the fetch
nor the insert opens a connection of its own (they reuse the one opened at
step 1); at most one connection is ever opened (exactly one when the store
accepts); and the guaranteed cleanup path runs in every run and closes the
connection whenever one was opened. -/
theorem single_connection_lifecycle (env : Env) :
    (mainRun env).connectAttempts = 1 ∧
    (mainRun env).cleanupRan = true ∧
    (mainRun env).fetchConnOpens = 0 ∧
    (mainRun env).insertConnOpens = 0 ∧
    ((mainRun env).connectionsOpened = if env.connectSucceeds then 1 else 0) ∧
    (env.connectSucceeds = true → (mainRun env).connectionClosed = true) := by
  rcases env with ⟨cs, qr, ii, now⟩
  cases cs <;> cases qr <;>
    exact ⟨rfl, rfl, rfl, rfl, rfl, fun hc => by first | rfl | simp at hc⟩

/-- Witness for C8 at a concrete successful environment. -/
theorem single_connection_lifecycle_instance :
    (mainRun envOk).connectAttempts = 1 ∧
    (mainRun envOk).connectionClosed = true :=
  ⟨(single_connection_lifecycle envOk).1,
    (single_connection_lifecycle envOk).2.2.2.2.2 rfl⟩

/-- C9: the derivation step is idempotent — running it again on the state
it produced returns the same state and the same derived table (same
records, same order, same values), since the derived columns are
recomputed from the unchanged raw columns. -/
theorem calculate_salary_components_idempotent (s s2 : SystemState)
    (r : Option (List Employee)) (h : calculate_salary_components s = (s2, r)) :
    calculate_salary_components s2 = (s2, r) := by
  rcases s with ⟨c, df⟩
  cases df with
  | none =>
    rw [show calculate_salary_components ⟨c, none⟩ = (⟨c, none⟩, none) from rfl] at h
    injection h with h1 h2
    subst h1
    subst h2
    rfl
  | some es =>
    rw [show calculate_salary_components ⟨c, some es⟩ =
      (⟨c, some (es.map calcOne)⟩, some (es.map calcOne)) from rfl] at h
    injection h with h1 h2
    subst h1
    subst h2
    simp only [calculate_salary_components, List.map_map,
      show calcOne ∘ calcOne = calcOne from funext fun e => rfl]

/-- Witness for C9 at a one-record input. -/
theorem calc_idempotent_instance :
    calculate_salary_components ⟨true, some ([wtA].map calcOne)⟩ =
      (⟨true, some ([wtA].map calcOne)⟩, some ([wtA].map calcOne)) :=
  calculate_salary_components_idempotent ⟨true, some [wtA]⟩
    ⟨true, some ([wtA].map calcOne)⟩ (some ([wtA].map calcOne)) rfl

/-- C10: the aggregate export mutates only a copy of the table (line 176),
so the stored record set is identical before and after the export. -/
theorem export_complete_report_preserves_table (now : String) (s : SystemState) :
    ((export_complete_report now s).1).df_employees = s.df_employees := by
  rcases s with ⟨c, df⟩
  cases df <;> rfl

/-- Witness for C10 at a one-record input. -/
theorem export_preserves_table_instance :
    ((export_complete_report ts0 ⟨true, some [wtB]⟩).1).df_employees =
      (⟨true, some [wtB]⟩ : SystemState).df_employees :=
  export_complete_report_preserves_table ts0 ⟨true, some [wtB]⟩
